import Mathlib

/-!
Shallow embedding of `src/agent.ts` from the recipe-finder repository.

The file models, faithfully to the TypeScript source:
* `buildChromeDevToolsArgs` — the launch-parameter builder for the
  chrome-devtools tool-server subprocess (branching on the `CHROME_PATH`
  environment variable);
* the module constants `CHROME_DEVTOOLS_MCP_CONFIG`, `ALLOWED_TOOLS` and
  `SYSTEM_PROMPT`;
* `getOptions` — the options assembler (standalone vs. embedded mode);
* `streamAgent` — the event relay: an async generator that consumes the
  agent runtime's message stream and re-emits normalized events.

The ambient process environment is modelled as a lookup function
`String → Option String` and passed explicitly to the definitions that read
it in the source.  The external agent runtime's output stream is modelled as
a finite list of messages followed by an ending (normal completion or a
raised error); the relay generator is then a pure function from that stream
to the list of events it yields together with how its own sequence ends.
-/

namespace RecipeFinder

/-- The process environment: a finite partial map from variable names to
values, modelled as a lookup function. -/
def Env : Type := String → Option String

/-- The base argument list of `buildChromeDevToolsArgs`
(`src/agent.ts` lines 10-18). -/
def baseArgs : List String :=
  ["-y",
   "chrome-devtools-mcp@latest",
   "--headless",
   "--isolated",
   "--no-category-emulation",
   "--no-category-performance",
   "--no-category-network"]

/-- The five extra arguments appended in the container branch
(`src/agent.ts` lines 26-30). -/
def containerExtraArgs : List String :=
  ["--executable-path=/usr/bin/chromium",
   "--chrome-arg=--no-sandbox",
   "--chrome-arg=--disable-setuid-sandbox",
   "--chrome-arg=--disable-dev-shm-usage",
   "--chrome-arg=--disable-gpu"]

/-- `buildChromeDevToolsArgs` (`src/agent.ts` lines 9-35): in a container
(`CHROME_PATH` set to `/usr/bin/chromium`) the base arguments are extended
with an explicit executable path and sandbox-disabling chrome flags;
otherwise the base arguments are returned unchanged. -/
def buildChromeDevToolsArgs (env : Env) : List String :=
  if env "CHROME_PATH" = some "/usr/bin/chromium" then
    baseArgs ++ containerExtraArgs
  else
    baseArgs

/-- `McpServerConfig` as used at `src/agent.ts` lines 37-41: a stdio
tool-server launch configuration. -/
structure McpServerConfig where
  type : String
  command : String
  args : List String
deriving DecidableEq, Repr

/-- `CHROME_DEVTOOLS_MCP_CONFIG` (`src/agent.ts` lines 37-41),
parametrized by the process environment it reads through
`buildChromeDevToolsArgs`. -/
def CHROME_DEVTOOLS_MCP_CONFIG (env : Env) : McpServerConfig :=
  { type := "stdio", command := "npx", args := buildChromeDevToolsArgs env }

/-- `ALLOWED_TOOLS` (`src/agent.ts` lines 43-57). -/
def ALLOWED_TOOLS : List String :=
  ["mcp__chrome-devtools__click",
   "mcp__chrome-devtools__fill",
   "mcp__chrome-devtools__fill_form",
   "mcp__chrome-devtools__hover",
   "mcp__chrome-devtools__press_key",
   "mcp__chrome-devtools__navigate_page",
   "mcp__chrome-devtools__new_page",
   "mcp__chrome-devtools__list_pages",
   "mcp__chrome-devtools__select_page",
   "mcp__chrome-devtools__close_page",
   "mcp__chrome-devtools__wait_for",
   "mcp__chrome-devtools__take_screenshot",
   "mcp__chrome-devtools__take_snapshot"]

/-- `SYSTEM_PROMPT` (`src/agent.ts` lines 59-154), the operating-procedure
text, verbatim. -/
def SYSTEM_PROMPT : String :=
  "You are a Recipe Finder agent with browser automation capabilities, specialized in searching AllRecipes.com and presenting recipes in a clean, usable format.\n\n## Your Mission\nHelp users discover recipes from AllRecipes by searching, navigating, and extracting recipe information including ingredients, instructions, cook times, and ratings.\n\n## Step-by-Step Strategy\n\n1. **Navigate to AllRecipes**\n   - Use navigate_page to go to https://www.allrecipes.com\n   - Wait for the page to load completely\n\n2. **Handle Cookie Banners/Popups**\n   - Take a snapshot to check for cookie consent banners or modal dialogs\n   - If present, click accept/dismiss buttons to clear them\n\n3. **Search for Recipes**\n   - Use take_snapshot to locate the search input field\n   - Use fill to enter the user's search query into the search box\n   - Use press_key to submit (press \"Enter\") or click the search button\n   - Wait for search results to load\n\n4. **Browse Search Results**\n   - Use take_snapshot to see the search results structure\n   - Identify promising recipe cards based on ratings, reviews, and titles\n   - Use click to select a recipe that matches the user's request\n   - If the first result isn't suitable, inform the user and try another\n\n5. **Extract Recipe Information**\n   - Once on a recipe page, use take_snapshot to analyze the page structure\n   - Extract the following information:\n     * Recipe title\n     * Rating (stars/score)\n     * Number of reviews\n     * Prep time, cook time, total time\n     * Servings/yield\n     * Ingredients list (with quantities and measurements)\n     * Step-by-step instructions\n     * Any notes or tips from the author\n   - Use take_screenshot if the user wants to see the recipe visually\n\n6. **Handle Multiple Recipes**\n   - If the user wants to compare multiple recipes, open them in new tabs using new_page\n   - Use list_pages and select_page to switch between recipes\n   - Present a comparison of key details\n\n## Error Handling\n\n- **No Results Found**: Suggest alternative search terms or broader queries\n- **Page Load Issues**: Retry navigation or wait longer with wait_for\n- **Recipe Format Changes**: Adapt by taking snapshots and identifying elements by common patterns\n- **Paywalls/Login Requirements**: Inform the user if a recipe requires account access\n\n## Output Format\n\nPresent recipes in this clean format:\n\n```\n**[Recipe Title]**\n‚≠ê Rating: [X.X/5] ([XXX] reviews)\n\n‚è±Ô∏è **Times:**\n- Prep: [X minutes]\n- Cook: [X minutes]\n- Total: [X minutes]\n- Servings: [X]\n\nüìù **Ingredients:**\n- [quantity] [unit] [ingredient]\n- [quantity] [unit] [ingredient]\n...\n\nüë®‚Äçüç≥ **Instructions:**\n1. [Step one]\n2. [Step two]\n3. [Step three]\n...\n\nüí° **Tips:** [Any helpful notes or tips]\n```\n\n## Best Practices\n\n- Always take snapshots before clicking to ensure accurate element targeting\n- Be patient with page loads - AllRecipes has ads and dynamic content\n- Prioritize highly-rated recipes unless user specifies otherwise\n- If extracting ingredients, preserve exact measurements and order\n- Offer to find alternative recipes if the first one doesn't meet user needs\n- Provide the recipe URL so users can bookmark or share it\n\n## URL Patterns\n\n- Homepage: https://www.allrecipes.com\n- Search: https://www.allrecipes.com/search?q=[query]\n- Recipe pages: https://www.allrecipes.com/recipe/[id]/[recipe-name]/\n\nRemember: Your goal is to make recipe discovery effortless and present information in a format that's immediately useful for cooking."

/-- The fields of the `Options` record built by `getOptions`
(`src/agent.ts` lines 156-165).  `mcpServers` is the optional tool-server
launch map (tool-server name to launch configuration). -/
structure Options where
  env : Env
  systemPrompt : String
  model : String
  allowedTools : List String
  maxTurns : Nat
  mcpServers : Option (List (String × McpServerConfig))

/-- `getOptions` (`src/agent.ts` lines 156-165): the options assembler.
The spread `...(standalone && { mcpServers: ... })` includes the
tool-server launch map exactly when `standalone` is true.  In the source
`standalone` defaults to `false`. -/
def getOptions (env : Env) (standalone : Bool) : Options :=
  { env := env,
    systemPrompt := SYSTEM_PROMPT,
    model := "haiku",
    allowedTools := ALLOWED_TOOLS,
    maxTurns := 50,
    mcpServers :=
      if standalone then
        some [("chrome-devtools", CHROME_DEVTOOLS_MCP_CONFIG env)]
      else
        none }

/-- A content block of an assistant message, as inspected by `streamAgent`
(`src/agent.ts` lines 170-185): a text block carries a string (possibly
empty), a tool-invocation block carries an operation name and arguments,
and any other block type is opaque. -/
inductive ContentBlock where
  | text (text : String)
  | tool_use (name : String) (input : List (String × String))
  | other (type : String)
deriving DecidableEq, Repr

/-- Token-usage counters as read at `src/agent.ts` lines 188-191; either
sub-field may be absent. -/
structure TokenUsage where
  input_tokens : Option Nat
  output_tokens : Option Nat
deriving DecidableEq, Repr

/-- The nested `message` object of a runtime message: an optional content
array and optional usage counters. -/
structure InnerMessage where
  content : Option (List ContentBlock)
  usage : Option TokenUsage
deriving DecidableEq, Repr

/-- A message of the agent runtime's stream as inspected by `streamAgent`:
a `type` tag, an optional nested `message` object, and an optional
`result` field. -/
structure SDKMessage where
  type : String
  message : Option InnerMessage
  result : Option String
deriving DecidableEq, Repr

/-- The normalized events yielded by `streamAgent`
(`src/agent.ts` lines 173, 182, 190, 195, 199). -/
inductive RelayEvent where
  | text (text : String)
  | tool (name : String)
  | usage (input : Nat) (output : Nat)
  | result (text : String)
  | done
deriving DecidableEq, Repr

/-- How the underlying runtime stream ends: normal completion, or an error
raised while the consumer awaits the next message. -/
inductive StreamEnd where
  | completed
  | failed (e : String)
deriving DecidableEq, Repr

/-- The observable behaviour of the external agent runtime's stream for one
invocation: the messages it yields, in order, followed by its ending. -/
structure RuntimeStream where
  messages : List SDKMessage
  ending : StreamEnd
deriving DecidableEq, Repr

/-- The guard shared by the two content loops of `streamAgent`
(`src/agent.ts` lines 170 and 179):
`message.type === "assistant" && message.message?.content` — the content
array is available exactly when the message is an assistant message, its
nested `message` object is present, and its `content` field is present. -/
def assistantContent (m : SDKMessage) : Option (List ContentBlock) :=
  if m.type = "assistant" then
    match m.message with
    | some inner => inner.content
    | none => none
  else
    none

/-- The first content loop of `streamAgent` (`src/agent.ts` lines 170-176):
one `text` event per text block whose text is truthy (non-empty). -/
def textEvents (m : SDKMessage) : List RelayEvent :=
  match assistantContent m with
  | some blocks =>
    blocks.filterMap fun b =>
      match b with
      | ContentBlock.text t => if t = "" then none else some (RelayEvent.text t)
      | _ => none
  | none => []

/-- The second content loop of `streamAgent` (`src/agent.ts` lines
179-185): one `tool` event per tool-invocation block, carrying the
operation name only. -/
def toolEvents (m : SDKMessage) : List RelayEvent :=
  match assistantContent m with
  | some blocks =>
    blocks.filterMap fun b =>
      match b with
      | ContentBlock.tool_use n _ => some (RelayEvent.tool n)
      | _ => none
  | none => []

/-- The usage branch of `streamAgent` (`src/agent.ts` lines 188-191): if
the nested message carries usage counters, one `usage` event with each
missing sub-field defaulted to zero (`u.input_tokens || 0`). -/
def usageEvents (m : SDKMessage) : List RelayEvent :=
  match m.message with
  | some inner =>
    match inner.usage with
    | some u => [RelayEvent.usage (u.input_tokens.getD 0) (u.output_tokens.getD 0)]
    | none => []
  | none => []

/-- The result branch of `streamAgent` (`src/agent.ts` lines 194-196):
`"result" in message && message.result` — one `result` event when the
field is present and truthy (non-empty). -/
def resultEvents (m : SDKMessage) : List RelayEvent :=
  match m.result with
  | some r => if r = "" then [] else [RelayEvent.result r]
  | none => []

/-- The events yielded by one iteration of the `for await` loop of
`streamAgent` for a single runtime message, in source order: text blocks,
then tool-invocation blocks, then usage, then result. -/
def relayMessage (m : SDKMessage) : List RelayEvent :=
  textEvents m ++ toolEvents m ++ usageEvents m ++ resultEvents m

/-- The events yielded by the `for await` loop over a list of runtime
messages, in arrival order. -/
def relayEvents : List SDKMessage → List RelayEvent
  | [] => []
  | m :: rest => relayMessage m ++ relayEvents rest

/-- `streamAgent` (`src/agent.ts` lines 167-200) as a function of the
underlying runtime stream (the value of the external `query` call): the
events the generator yields and how its own sequence ends.  If the
underlying stream completes, the loop's events are followed by one `done`
event; if the underlying stream raises, the events of the messages already
seen are followed by the same error, and the trailing `yield` of `done` is
never reached. -/
def streamAgent (s : RuntimeStream) : List RelayEvent × StreamEnd :=
  match s.ending with
  | StreamEnd.completed => (relayEvents s.messages ++ [RelayEvent.done], StreamEnd.completed)
  | StreamEnd.failed e => (relayEvents s.messages, StreamEnd.failed e)

/-- The operation names of the tool-invocation blocks of a content array,
in encounter order (specification-side helper for stating theorems about
`toolEvents`). -/
def toolUseNames (blocks : List ContentBlock) : List String :=
  blocks.filterMap fun b =>
    match b with
    | ContentBlock.tool_use n _ => some n
    | _ => none

/-- Erase the arguments of every tool-invocation block
(specification-side helper: `toolEvents` is invariant under it). -/
def stripToolArgs : ContentBlock → ContentBlock
  | ContentBlock.tool_use n _ => ContentBlock.tool_use n []
  | b => b

/-- Whether a relay event is a tool event (specification-side helper). -/
def RelayEvent.isTool : RelayEvent → Bool
  | RelayEvent.tool _ => true
  | _ => false

/-! ### Shape lemmas about the four per-message event lists -/

/-- Every event produced by the text loop is a `text` event with non-empty
text. -/
theorem mem_textEvents {m : SDKMessage} {e : RelayEvent} (he : e ∈ textEvents m) :
    ∃ t, e = RelayEvent.text t ∧ t ≠ "" := by
  unfold textEvents at he
  cases h : assistantContent m with
  | none => rw [h] at he; cases he
  | some blocks =>
    rw [h, List.mem_filterMap] at he
    obtain ⟨b, _, hb⟩ := he
    cases b with
    | text t =>
      by_cases ht : t = ""
      · simp [ht] at hb
      · simp only [ht, if_false, Option.some.injEq] at hb
        exact ⟨t, hb.symm, ht⟩
    | tool_use n args => simp at hb
    | other ty => simp at hb

/-- Every event produced by the tool loop is a `tool` event. -/
theorem mem_toolEvents {m : SDKMessage} {e : RelayEvent} (he : e ∈ toolEvents m) :
    ∃ n, e = RelayEvent.tool n := by
  unfold toolEvents at he
  cases h : assistantContent m with
  | none => rw [h] at he; cases he
  | some blocks =>
    rw [h, List.mem_filterMap] at he
    obtain ⟨b, _, hb⟩ := he
    cases b with
    | text t => simp at hb
    | tool_use n args =>
      simp only [Option.some.injEq] at hb
      exact ⟨n, hb.symm⟩
    | other ty => simp at hb

/-- Every event produced by the usage branch is a `usage` event. -/
theorem mem_usageEvents {m : SDKMessage} {e : RelayEvent} (he : e ∈ usageEvents m) :
    ∃ i o, e = RelayEvent.usage i o := by
  obtain ⟨ty, msg, res⟩ := m
  cases msg with
  | none => cases he
  | some inner =>
    obtain ⟨cont, usg⟩ := inner
    cases usg with
    | none => cases he
    | some u =>
      simp only [usageEvents, List.mem_singleton] at he
      exact ⟨u.input_tokens.getD 0, u.output_tokens.getD 0, he⟩

/-- Every event produced by the result branch is a `result` event with
non-empty text. -/
theorem mem_resultEvents {m : SDKMessage} {e : RelayEvent} (he : e ∈ resultEvents m) :
    ∃ t, e = RelayEvent.result t ∧ t ≠ "" := by
  obtain ⟨ty, msg, res⟩ := m
  cases res with
  | none => cases he
  | some r =>
    by_cases hr : r = ""
    · unfold resultEvents at he
      simp [hr] at he
    · unfold resultEvents at he
      simp only [hr, if_false, List.mem_singleton] at he
      exact ⟨r, he, hr⟩

/-- The loop body never yields a `done` event: `done` is yielded only once,
after the loop. -/
theorem relayMessage_no_done (m : SDKMessage) : RelayEvent.done ∉ relayMessage m := by
  intro h
  unfold relayMessage at h
  rcases List.mem_append.mp h with h | h
  · rcases List.mem_append.mp h with h | h
    · rcases List.mem_append.mp h with h | h
      · obtain ⟨t, ht, _⟩ := mem_textEvents h
        cases ht
      · obtain ⟨n, hn⟩ := mem_toolEvents h
        cases hn
    · obtain ⟨i, o, hio⟩ := mem_usageEvents h
      cases hio
  · obtain ⟨t, ht, _⟩ := mem_resultEvents h
    cases ht

/-- The loop as a whole never yields a `done` event. -/
theorem relayEvents_no_done (msgs : List SDKMessage) :
    RelayEvent.done ∉ relayEvents msgs := by
  induction msgs with
  | nil => intro h; cases h
  | cons m rest ih =>
    intro h
    rcases List.mem_append.mp h with h | h
    · exact relayMessage_no_done m h
    · exact ih h

/-! ### Claim theorems -/

/-- C1 (counterexample): the claim as stated is false.  In the container
environment (`CHROME_PATH = /usr/bin/chromium`) the builder's output is NOT
the base flag sequence followed by exactly the four sandbox-disabling
flags: the code inserts a fifth flag, the explicit executable path, before
them. -/
theorem buildArgs_container_not_base_plus_four :
    buildChromeDevToolsArgs (fun _ => some "/usr/bin/chromium") ≠
      baseArgs ++
        ["--chrome-arg=--no-sandbox",
         "--chrome-arg=--disable-setuid-sandbox",
         "--chrome-arg=--disable-dev-shm-usage",
         "--chrome-arg=--disable-gpu"] := by
  decide

/-- C1 (amended): for an environment in which the browser-executable-path
variable equals the container value, the builder's output equals the base
flag sequence followed by exactly five additional flags — the explicit
executable-path flag and then the four sandbox-disabling flags — in fixed
order, with no duplicate tokens. -/
theorem buildArgs_container_appends_five_flags (env : Env)
    (h : env "CHROME_PATH" = some "/usr/bin/chromium") :
    buildChromeDevToolsArgs env = baseArgs ++ containerExtraArgs ∧
    containerExtraArgs =
      ["--executable-path=/usr/bin/chromium",
       "--chrome-arg=--no-sandbox",
       "--chrome-arg=--disable-setuid-sandbox",
       "--chrome-arg=--disable-dev-shm-usage",
       "--chrome-arg=--disable-gpu"] ∧
    (buildChromeDevToolsArgs env).Nodup := by
  have hb : buildChromeDevToolsArgs env = baseArgs ++ containerExtraArgs := by
    unfold buildChromeDevToolsArgs
    rw [if_pos h]
  refine ⟨hb, rfl, ?_⟩
  rw [hb]
  decide

/-- C1 (witness for the amended theorem): the container environment
satisfies the hypothesis and the conclusion holds there. -/
theorem buildArgs_container_appends_five_flags_witness :
    buildChromeDevToolsArgs (fun _ => some "/usr/bin/chromium") =
      baseArgs ++ containerExtraArgs ∧
    (buildChromeDevToolsArgs (fun _ => some "/usr/bin/chromium")).Nodup :=
  ⟨(buildArgs_container_appends_five_flags (fun _ => some "/usr/bin/chromium") rfl).1,
   (buildArgs_container_appends_five_flags (fun _ => some "/usr/bin/chromium") rfl).2.2⟩

/-- C8: for every environment in which the browser-executable-path variable
is unset or set to any value other than the container value, the builder's
output equals exactly the base flag sequence. -/
theorem buildArgs_non_container (env : Env)
    (h : env "CHROME_PATH" ≠ some "/usr/bin/chromium") :
    buildChromeDevToolsArgs env = baseArgs := by
  unfold buildChromeDevToolsArgs
  rw [if_neg h]

/-- C8 (witness): an unset variable and a non-matching variable both yield
exactly the base flags. -/
theorem buildArgs_non_container_witness :
    buildChromeDevToolsArgs (fun _ => none) = baseArgs ∧
    buildChromeDevToolsArgs (fun _ => some "/usr/local/bin/chrome") = baseArgs :=
  ⟨buildArgs_non_container (fun _ => none) (by decide),
   buildArgs_non_container (fun _ => some "/usr/local/bin/chrome") (by decide)⟩

/-- C5: the options assembler includes the tool-server launch map
(tool-server name to launch configuration) in its output exactly when
invoked in standalone mode, and every other field of the record is equal
between the standalone and embedded branches. -/
theorem getOptions_mcpServers_iff_standalone (env : Env) (standalone : Bool) :
    ((getOptions env standalone).mcpServers.isSome = standalone) ∧
    (getOptions env true).mcpServers =
      some [("chrome-devtools", CHROME_DEVTOOLS_MCP_CONFIG env)] ∧
    (getOptions env false).mcpServers = none ∧
    (getOptions env true).env = (getOptions env false).env ∧
    (getOptions env true).systemPrompt = (getOptions env false).systemPrompt ∧
    (getOptions env true).model = (getOptions env false).model ∧
    (getOptions env true).allowedTools = (getOptions env false).allowedTools ∧
    (getOptions env true).maxTurns = (getOptions env false).maxTurns := by
  refine ⟨?_, rfl, rfl, rfl, rfl, rfl, rfl, rfl⟩
  cases standalone <;> rfl

/-- C9: in both standalone and embedded mode, the configuration record sets
the per-request turn ceiling to exactly 50. -/
theorem getOptions_maxTurns_50 (env : Env) (standalone : Bool) :
    (getOptions env standalone).maxTurns = 50 := rfl

/-- C3: if the underlying runtime stream raises before producing any
message, the relay terminates at that error having emitted zero events and
no `done` event; in general any error of the underlying stream propagates
unmodified and the aborted sequence contains no `done` event. -/
theorem streamAgent_error_propagates (msgs : List SDKMessage) (e : String) :
    streamAgent ⟨[], StreamEnd.failed e⟩ = ([], StreamEnd.failed e) ∧
    (streamAgent ⟨msgs, StreamEnd.failed e⟩).2 = StreamEnd.failed e ∧
    RelayEvent.done ∉ (streamAgent ⟨msgs, StreamEnd.failed e⟩).1 :=
  ⟨rfl, rfl, relayEvents_no_done msgs⟩

/-- C4: for every finite underlying message sequence that completes without
raising, the relay emits exactly one `done` event and it is the last event
of the output sequence. -/
theorem streamAgent_done_exactly_once (msgs : List SDKMessage) :
    ((streamAgent ⟨msgs, StreamEnd.completed⟩).1.count RelayEvent.done = 1) ∧
    ((streamAgent ⟨msgs, StreamEnd.completed⟩).1.getLast? = some RelayEvent.done) := by
  constructor
  · show (relayEvents msgs ++ [RelayEvent.done]).count RelayEvent.done = 1
    rw [List.count_append, List.count_eq_zero.mpr (relayEvents_no_done msgs)]
    rfl
  · show (relayEvents msgs ++ [RelayEvent.done]).getLast? = some RelayEvent.done
    rw [List.getLast?_concat]

/-- The tool loop's per-block extraction, as a plain `filterMap`, equals
the operation names mapped to `tool` events. -/
theorem filterMap_tool_eq_map (blocks : List ContentBlock) :
    (blocks.filterMap fun b =>
       match b with
       | ContentBlock.tool_use n _ => some (RelayEvent.tool n)
       | _ => none) = (toolUseNames blocks).map RelayEvent.tool := by
  induction blocks with
  | nil => rfl
  | cons b rest ih =>
    cases b <;> simp [toolUseNames, List.filterMap_cons, List.map_cons, ih]

/-- The tool loop, evaluated on an assistant message with a present content
array, yields exactly the tool-invocation operation names, in encounter
order, as `tool` events. -/
theorem toolEvents_assistant (blocks : List ContentBlock) (u : Option TokenUsage)
    (r : Option String) :
    toolEvents ⟨"assistant", some ⟨some blocks, u⟩, r⟩ =
      (toolUseNames blocks).map RelayEvent.tool := by
  have e : toolEvents ⟨"assistant", some ⟨some blocks, u⟩, r⟩ =
      blocks.filterMap (fun b =>
        match b with
        | ContentBlock.tool_use n _ => some (RelayEvent.tool n)
        | _ => none) := rfl
  rw [e, filterMap_tool_eq_map]

/-- Erasing tool-invocation arguments leaves the operation names, hence the
emitted tool events, unchanged. -/
theorem toolUseNames_stripToolArgs (blocks : List ContentBlock) :
    toolUseNames (blocks.map stripToolArgs) = toolUseNames blocks := by
  induction blocks with
  | nil => rfl
  | cons b rest ih =>
    cases b <;>
      simp only [toolUseNames, List.map_cons, stripToolArgs, List.filterMap_cons] at ih ⊢ <;>
      rw [ih]

/-- Among all events the relay yields for one message, the tool events are
exactly the tool loop's output. -/
theorem filter_isTool_relayMessage (m : SDKMessage) :
    (relayMessage m).filter RelayEvent.isTool = toolEvents m := by
  have ht : (textEvents m).filter RelayEvent.isTool = [] := by
    rw [List.filter_eq_nil_iff]
    intro e he
    obtain ⟨t, rfl, _⟩ := mem_textEvents he
    simp [RelayEvent.isTool]
  have htool : (toolEvents m).filter RelayEvent.isTool = toolEvents m := by
    rw [List.filter_eq_self]
    intro e he
    obtain ⟨n, rfl⟩ := mem_toolEvents he
    rfl
  have hu : (usageEvents m).filter RelayEvent.isTool = [] := by
    rw [List.filter_eq_nil_iff]
    intro e he
    obtain ⟨i, o, rfl⟩ := mem_usageEvents he
    simp [RelayEvent.isTool]
  have hr : (resultEvents m).filter RelayEvent.isTool = [] := by
    rw [List.filter_eq_nil_iff]
    intro e he
    obtain ⟨t, rfl, _⟩ := mem_resultEvents he
    simp [RelayEvent.isTool]
  unfold relayMessage
  rw [List.filter_append, List.filter_append, List.filter_append, ht, htool, hu, hr]
  simp

/-- C2: for the simulated runtime sequence — one assistant message with two
(non-empty) text blocks, one assistant message with one tool-invocation
block, one message carrying usage counters input=10 and output=5, and one
message carrying the final result string "Found 3 recipes" — the relay
yields exactly text, text, tool, usage(10,5), result("Found 3 recipes"),
done, in that order. -/
theorem streamAgent_example_sequence (t1 t2 name : String)
    (args : List (String × String)) (h1 : t1 ≠ "") (h2 : t2 ≠ "") :
    streamAgent
      ⟨[⟨"assistant", some ⟨some [ContentBlock.text t1, ContentBlock.text t2], none⟩, none⟩,
        ⟨"assistant", some ⟨some [ContentBlock.tool_use name args], none⟩, none⟩,
        ⟨"user", some ⟨none, some ⟨some 10, some 5⟩⟩, none⟩,
        ⟨"result", none, some "Found 3 recipes"⟩],
       StreamEnd.completed⟩ =
    ([RelayEvent.text t1, RelayEvent.text t2, RelayEvent.tool name,
      RelayEvent.usage 10 5, RelayEvent.result "Found 3 recipes", RelayEvent.done],
     StreamEnd.completed) := by
  simp [streamAgent, relayEvents, relayMessage, textEvents, toolEvents, usageEvents,
        resultEvents, assistantContent, h1, h2]

/-- C2 (witness): the sequence evaluated at concrete non-empty texts and a
concrete tool name. -/
theorem streamAgent_example_sequence_witness :
    streamAgent
      ⟨[⟨"assistant",
         some ⟨some [ContentBlock.text "Searching AllRecipes",
                     ContentBlock.text "for chicken recipes"], none⟩, none⟩,
        ⟨"assistant",
         some ⟨some [ContentBlock.tool_use "mcp__chrome-devtools__navigate_page" []], none⟩,
         none⟩,
        ⟨"user", some ⟨none, some ⟨some 10, some 5⟩⟩, none⟩,
        ⟨"result", none, some "Found 3 recipes"⟩],
       StreamEnd.completed⟩ =
    ([RelayEvent.text "Searching AllRecipes", RelayEvent.text "for chicken recipes",
      RelayEvent.tool "mcp__chrome-devtools__navigate_page",
      RelayEvent.usage 10 5, RelayEvent.result "Found 3 recipes", RelayEvent.done],
     StreamEnd.completed) :=
  streamAgent_example_sequence "Searching AllRecipes" "for chicken recipes"
    "mcp__chrome-devtools__navigate_page" [] (by decide) (by decide)

/-- C6: for a runtime message carrying usage counters with exactly one
sub-field absent, the relay emits a usage event whose missing sub-field is
zero and whose present sub-field is the carried value, unchanged. -/
theorem usageEvents_default_missing_subfield (m : SDKMessage) (inner : InnerMessage)
    (i o : Nat) (hm : m.message = some inner) :
    (inner.usage = some ⟨some i, none⟩ →
      usageEvents m = [RelayEvent.usage i 0] ∧
      RelayEvent.usage i 0 ∈ relayMessage m) ∧
    (inner.usage = some ⟨none, some o⟩ →
      usageEvents m = [RelayEvent.usage 0 o] ∧
      RelayEvent.usage 0 o ∈ relayMessage m) := by
  constructor
  · intro hu
    have he : usageEvents m = [RelayEvent.usage i 0] := by
      simp only [usageEvents, hm, hu, Option.getD_some, Option.getD_none]
    exact ⟨he, by simp [relayMessage, he]⟩
  · intro hu
    have he : usageEvents m = [RelayEvent.usage 0 o] := by
      simp only [usageEvents, hm, hu, Option.getD_some, Option.getD_none]
    exact ⟨he, by simp [relayMessage, he]⟩

/-- C6 (witness): a message whose usage carries only `input_tokens = 7`
yields `usage 7 0`, and one carrying only `output_tokens = 9` yields
`usage 0 9`. -/
theorem usageEvents_default_missing_subfield_witness :
    usageEvents ⟨"x", some ⟨none, some ⟨some 7, none⟩⟩, none⟩ = [RelayEvent.usage 7 0] ∧
    usageEvents ⟨"x", some ⟨none, some ⟨none, some 9⟩⟩, none⟩ = [RelayEvent.usage 0 9] :=
  ⟨((usageEvents_default_missing_subfield
      ⟨"x", some ⟨none, some ⟨some 7, none⟩⟩, none⟩
      ⟨none, some ⟨some 7, none⟩⟩ 7 0 rfl).1 rfl).1,
   ((usageEvents_default_missing_subfield
      ⟨"x", some ⟨none, some ⟨none, some 9⟩⟩, none⟩
      ⟨none, some ⟨none, some 9⟩⟩ 7 9 rfl).2 rfl).1⟩

/-- C7: for an assistant message with a content array, the relay emits one
tool event per tool-invocation block in encounter order, each carrying the
operation name only; the blocks' arguments are dropped (the output is
invariant under erasing them), and the tool events among all events the
relay yields for the message are exactly these. -/
theorem toolEvents_name_only_in_order (blocks : List ContentBlock)
    (u : Option TokenUsage) (r : Option String) :
    toolEvents ⟨"assistant", some ⟨some blocks, u⟩, r⟩ =
      (toolUseNames blocks).map RelayEvent.tool ∧
    toolEvents ⟨"assistant", some ⟨some (blocks.map stripToolArgs), u⟩, r⟩ =
      toolEvents ⟨"assistant", some ⟨some blocks, u⟩, r⟩ ∧
    (relayMessage ⟨"assistant", some ⟨some blocks, u⟩, r⟩).filter RelayEvent.isTool =
      (toolUseNames blocks).map RelayEvent.tool := by
  refine ⟨toolEvents_assistant blocks u r, ?_, ?_⟩
  · rw [toolEvents_assistant, toolEvents_assistant, toolUseNames_stripToolArgs]
  · rw [filter_isTool_relayMessage, toolEvents_assistant]

/-- C10: a text block whose text is the empty string contributes no event
(removing it from the content array leaves the text loop's output
unchanged), and every text event the relay yields carries non-empty
text. -/
theorem textEvents_skip_empty (u : Option TokenUsage) (r : Option String)
    (l1 l2 : List ContentBlock) (m : SDKMessage) (t : String) :
    textEvents ⟨"assistant", some ⟨some (l1 ++ ContentBlock.text "" :: l2), u⟩, r⟩ =
      textEvents ⟨"assistant", some ⟨some (l1 ++ l2), u⟩, r⟩ ∧
    (RelayEvent.text t ∈ relayMessage m → t ≠ "") := by
  constructor
  · have e1 : textEvents ⟨"assistant", some ⟨some (l1 ++ ContentBlock.text "" :: l2), u⟩, r⟩ =
        (l1 ++ ContentBlock.text "" :: l2).filterMap (fun b =>
          match b with
          | ContentBlock.text t => if t = "" then none else some (RelayEvent.text t)
          | _ => none) := rfl
    have e2 : textEvents ⟨"assistant", some ⟨some (l1 ++ l2), u⟩, r⟩ =
        (l1 ++ l2).filterMap (fun b =>
          match b with
          | ContentBlock.text t => if t = "" then none else some (RelayEvent.text t)
          | _ => none) := rfl
    rw [e1, e2, List.filterMap_append, List.filterMap_append, List.filterMap_cons]
    simp
  · intro hm
    unfold relayMessage at hm
    rcases List.mem_append.mp hm with h | h
    · rcases List.mem_append.mp h with h | h
      · rcases List.mem_append.mp h with h | h
        · obtain ⟨t', ht, hne⟩ := mem_textEvents h
          cases ht
          exact hne
        · obtain ⟨n, hn⟩ := mem_toolEvents h
          cases hn
      · obtain ⟨i, o, hio⟩ := mem_usageEvents h
        cases hio
    · obtain ⟨t', ht, _⟩ := mem_resultEvents h
      cases ht

/-- C10 (witness): a non-empty text block does yield its event, and the
theorem applied to it gives the non-emptiness. -/
theorem textEvents_skip_empty_witness :
    RelayEvent.text "hi" ∈
      relayMessage ⟨"assistant", some ⟨some [ContentBlock.text "hi"], none⟩, none⟩ ∧
    ("hi" : String) ≠ "" :=
  ⟨by decide,
   (textEvents_skip_empty none none [] []
      ⟨"assistant", some ⟨some [ContentBlock.text "hi"], none⟩, none⟩ "hi").2 (by decide)⟩

end RecipeFinder
